import Mathlib

/-!
Timing functions of the realtime API (rtapi_time.c).

A shallow embedding of `src/rtapi/rtapi_time.c`.  The file is compiled in several
configurations selected by preprocessor symbols; each configuration of a function
is embedded as a Lean function of its own, or takes the build choice as an argument.

C integers are embedded as `Int` (LP64: `int` is 32 bits, `long` and `long long`
are 64 bits); a conversion to a narrower or unsigned type is written out as an
explicit reduction modulo `2 ^ w`.  C division truncates toward zero and is
embedded as `Int.tdiv`.

Every function returns an `Outcome`: the state after the call, the returned value,
and the calls it made to collaborators outside the file (the message sink, the
platform hook, the busy-wait primitive), in order.
-/

namespace RtapiTime

/-! ## Machine integers -/

/-- Conversion of a C value to `int` (32 bits, signed, wrapping). -/
def to_int (x : Int) : Int := (x + 2147483648) % 4294967296 - 2147483648

/-- Conversion of a C value to `long` / `long long` (64 bits, signed, wrapping). -/
def to_long (x : Int) : Int :=
  (x + 9223372036854775808) % 18446744073709551616 - 9223372036854775808

/-- Conversion of a C value to `unsigned long` (64 bits). -/
def to_ulong (x : Int) : Int := x % 18446744073709551616

/-- The value of `EINVAL` in `errno.h`. -/
def EINVAL : Int := 22

/-! ## Collaborators and state -/

/-- Message levels passed to `rtapi_print_msg` by this file. -/
inductive msg_level where
  | RTAPI_MSG_ERR
  | RTAPI_MSG_DBG
deriving DecidableEq

/-- Calls that leave the file, as observed from outside. -/
inductive Event where
  /-- A call `rtapi_print_msg(level, ...)`. -/
  | print_msg (level : msg_level)
  /-- A call `rtapi_clock_set_period_hook(nsecs, &counts, &got_counts)`. -/
  | clock_set_period_hook (nsecs : Int)
  /-- A call `udelay(usecs)`, with the value of the argument expression `nsec / 1000`. -/
  | udelay (usecs : Int)
deriving DecidableEq

/-- The variables of the file, with the two fields of `rtapi_data` it uses. -/
structure State where
  /-- The variable `int period` (line 37). -/
  period : Int
  /-- The variable `long int max_delay` (line 39), initialised to `DEFAULT_MAX_DELAY`. -/
  max_delay : Int
  /-- The variable `unsigned long timer_counts` (line 43). -/
  timer_counts : Int
  /-- The field `rtapi_data->timer_period`. -/
  timer_period : Int
  /-- The field `rtapi_data->timer_running`, tested as a C truth value. -/
  timer_running : Int
deriving DecidableEq

/-- What a call leaves behind: new state, returned value, collaborator calls. -/
structure Outcome where
  state : State
  ret : Int
  events : List Event
deriving DecidableEq

/-- What `rtapi_clock_set_period_hook` writes: `rtapi_data->timer_period` and the
two out-parameters `*counts`, `*got_counts` (comment at lines 98-99). -/
structure HookResult where
  timer_period : Int
  counts : Int
  got_counts : Int
deriving DecidableEq

/-- The platform hook, as a function of the request and the state it runs in. -/
abbrev Hook := Int → State → HookResult

/-! ## rtapi_clock_set_period -/

/-- Process build (`BUILD_SYS_USER_DSO`, lines 51-77).  `res` is `none` in the
`RTAPI_TIME_NO_CLOCK_MONOTONIC` build and `some R` otherwise, `R` being the
`tv_nsec` that `clock_getres(CLOCK_MONOTONIC, &res)` stores.  The quotient and the
product of line 67 are computed in `long` and, for `R ≥ 1`, are no larger in
magnitude than `nsecs`; the assignments to the `int period` convert.  (`R = 0`
is a division by zero in C, outside this embedding.) -/
def rtapi_clock_set_period_user (res : Option Int) (s : State) (nsecs : Int) : Outcome :=
  if nsecs = 0 then
    ⟨s, s.period, []⟩
  else if s.period ≠ 0 then
    ⟨s, -EINVAL, [Event.print_msg msg_level.RTAPI_MSG_ERR]⟩
  else
    match res with
    | none =>
      let period := to_int nsecs
      ⟨{ s with period := period }, period, []⟩
    | some tv_nsec =>
      let period := to_int (Int.tdiv nsecs tv_nsec * tv_nsec)
      let period := if period < 1 then to_int tv_nsec else period
      ⟨{ s with period := period }, period, [Event.print_msg msg_level.RTAPI_MSG_DBG]⟩

/-- Module build (lines 79-114).  `hook` is `none` when
`HAVE_RTAPI_CLOCK_SET_PERIOD_HOOK` is not defined. -/
def rtapi_clock_set_period (hook : Option Hook) (s : State) (nsecs : Int) : Outcome :=
  if nsecs = 0 then
    ⟨s, s.timer_period, []⟩
  else if s.timer_running ≠ 0 then
    ⟨s, -EINVAL, []⟩
  else if nsecs < 2000 ∨ nsecs > 1000000000 then
    ⟨s, -EINVAL, [Event.print_msg msg_level.RTAPI_MSG_ERR]⟩
  else
    match hook with
    | none =>
      let s1 := { s with timer_running := 1 }
      let s2 := { s1 with max_delay := Int.tdiv s1.timer_period 4 }
      ⟨s2, s2.timer_period, [Event.print_msg msg_level.RTAPI_MSG_DBG]⟩
    | some h =>
      let r := h nsecs s
      let s1 := { s with timer_period := r.timer_period,
                         timer_counts := to_ulong r.got_counts }
      let s2 := { s1 with timer_running := 1 }
      let s3 := { s2 with max_delay := Int.tdiv s2.timer_period 4 }
      ⟨s3, s3.timer_period,
        [Event.clock_set_period_hook nsecs, Event.print_msg msg_level.RTAPI_MSG_DBG]⟩

/-! ## rtapi_get_time -/

/-- A reading of `struct timespec` (`tv_sec`, `tv_nsec`). -/
structure timespec where
  tv_sec : Int
  tv_nsec : Int
deriving DecidableEq

/-- A reading of `struct timeval` (`tv_sec`, `tv_usec`). -/
structure timeval where
  tv_sec : Int
  tv_usec : Int
deriving DecidableEq

/-- Hook build (`HAVE_RTAPI_GET_TIME_HOOK`, lines 124-126): `t` is the value
`rtapi_get_time_hook()` returns at this call. -/
def rtapi_get_time_hooked (s : State) (t : Int) : Outcome :=
  ⟨s, t, []⟩

/-- Build with `RTAPI` defined (lines 128-133): `ts` is what `clock_gettime(CLOCK_MONOTONIC, &ts)`
stores at this call.  The arithmetic is done in `long`, left to right. -/
def rtapi_get_time (s : State) (ts : timespec) : Outcome :=
  ⟨s, to_long (to_long (to_long (to_long (ts.tv_sec * 1000) * 1000) * 1000) + ts.tv_nsec), []⟩

/-- Build for `ULAPI` (lines 136-143): `tv` is what `gettimeofday(&tv, 0)` stores at
this call. -/
def rtapi_get_time_ulapi (s : State) (tv : timeval) : Outcome :=
  ⟨s, to_long (to_long (to_long (to_long (tv.tv_sec * 1000) * 1000) * 1000)
        + to_long (tv.tv_usec * 1000)),
    [Event.print_msg msg_level.RTAPI_MSG_ERR]⟩

/-! ## rtapi_get_clocks -/

/-- The build choices for the time stamp counter (lines 22-32). -/
inductive clocks_impl where
  /-- With `HAVE_RTAPI_GET_CLOCKS_HOOK`. -/
  | hook
  /-- With `MSR_H_USABLE`: `rdtscll` of `asm/msr.h`. -/
  | msr_h
  /-- On `__i386__` or `__x86_64__`: the `rdtsc` instruction. -/
  | rdtsc
  /-- Otherwise: `#define rdtscll(val) (val)=0`, under a compile-time `#warning`. -/
  | unavailable
deriving DecidableEq

/-- Lines 150-159.  `counter` is the value the hook or the hardware counter
delivers at this call. -/
def rtapi_get_clocks (impl : clocks_impl) (s : State) (counter : Int) : Outcome :=
  match impl with
  | clocks_impl.hook => ⟨s, counter, []⟩
  | clocks_impl.msr_h => ⟨s, to_long counter, []⟩
  | clocks_impl.rdtsc => ⟨s, to_long counter, []⟩
  | clocks_impl.unavailable => ⟨s, 0, []⟩

/-! ## rtapi_delay, rtapi_delay_max (`MODULE` build) -/

/-- Lines 164-170.  The function returns `void`; `ret` is 0. -/
def rtapi_delay (s : State) (nsec : Int) : Outcome :=
  let nsec := if nsec > s.max_delay then s.max_delay else nsec
  ⟨s, 0, [Event.udelay (Int.tdiv nsec 1000)]⟩

/-- Lines 172-175. -/
def rtapi_delay_max (s : State) : Outcome :=
  ⟨s, s.max_delay, []⟩

/-! ## Sequences of calls -/

/-- A sequence of calls of one operation, threading the state: the final state,
the returned values in call order, and all collaborator calls in order. -/
def run_calls {α : Type} (op : State → α → Outcome) :
    State → List α → State × List Int × List Event
  | s, [] => (s, [], [])
  | s, a :: rest =>
    let o := op s a
    let r := run_calls op o.state rest
    (r.1, o.ret :: r.2.1, o.events ++ r.2.2)

/-- The state at module or process start: all variables zero, `max_delay` at
`DEFAULT_MAX_DELAY` (given as argument, the constant is defined in `rtapi_common.h`). -/
def initial_state (default_max_delay : Int) : State :=
  ⟨0, default_max_delay, 0, 0, 0⟩

/-- A hook that programs exactly the requested period, one count per nanosecond. -/
def exact_hook : Hook := fun nsecs _ => ⟨nsecs, nsecs, nsecs⟩

/-- Modelled from the spec: the busy-wait primitive `udelay` is declared outside the
file and takes an `unsigned long` count; this is the count it receives for the
value `usecs` of the argument expression. -/
def udelay_count (usecs : Int) : Int := to_ulong usecs

/-- The counts received by the busy-wait primitive among the collaborator calls. -/
def udelay_counts : List Event → List Int
  | [] => []
  | Event.udelay usecs :: rest => udelay_count usecs :: udelay_counts rest
  | _ :: rest => udelay_counts rest

/-- The operations the file exports, each with the input of one call. -/
inductive module_op where
  | clock_set_period (nsecs : Int)
  | delay (nsec : Int)
  | delay_max
  | get_time (ts : timespec)
  | get_time_hooked (t : Int)
  | get_time_ulapi (tv : timeval)
  | get_clocks (counter : Int)
deriving DecidableEq

/-- One call of an exported operation in the module build. -/
def module_step (hook : Option Hook) (impl : clocks_impl) (s : State) : module_op → Outcome
  | module_op.clock_set_period nsecs => rtapi_clock_set_period hook s nsecs
  | module_op.delay nsec => rtapi_delay s nsec
  | module_op.delay_max => rtapi_delay_max s
  | module_op.get_time ts => rtapi_get_time s ts
  | module_op.get_time_hooked t => rtapi_get_time_hooked s t
  | module_op.get_time_ulapi tv => rtapi_get_time_ulapi s tv
  | module_op.get_clocks counter => rtapi_get_clocks impl s counter

/-! ## Properties -/

/-! ### Helper facts -/

/-- Queries answered without a state change or a collaborator call repeat. -/
theorem run_calls_query (op : State → Int → Outcome) (v : State → Int)
    (hq : ∀ s, op s 0 = ⟨s, v s, []⟩) (s : State) (k : Nat) :
    run_calls op s (List.replicate k 0) = (s, List.replicate k (v s), []) := by
  induction k with
  | zero => rfl
  | succ k ih => simp [List.replicate_succ, run_calls, hq, ih]

theorem to_int_of_range (x : Int) (h0 : -2147483648 ≤ x) (h1 : x ≤ 2147483647) :
    to_int x = x := by
  unfold to_int; omega

theorem to_long_of_range (x : Int) (h0 : -9223372036854775808 ≤ x)
    (h1 : x ≤ 9223372036854775807) : to_long x = x := by
  unfold to_long; omega

/-- From a state that an operation maps to itself whatever the argument, a
sequence of calls ends in that state and returns the per-call values. -/
theorem run_calls_fixed {α : Type} (op : State → α → Outcome) (s : State)
    (f : α → Int) (hfix : ∀ a, (op s a).state = s ∧ (op s a).ret = f a) (l : List α) :
    (run_calls op s l).1 = s ∧ (run_calls op s l).2.1 = l.map f := by
  induction l with
  | nil => exact ⟨rfl, rfl⟩
  | cons a rest ih =>
    have h := hfix a
    simp only [run_calls, List.map_cons, h.1, h.2]
    exact ⟨ih.1, by rw [ih.2]⟩

/-- As `run_calls_fixed`, for an operation that calls no collaborator there. -/
theorem run_calls_const {α : Type} (op : State → α → Outcome) (s : State)
    (f : α → Int) (hfix : ∀ a, op s a = ⟨s, f a, []⟩) (l : List α) :
    run_calls op s l = (s, l.map f, []) := by
  induction l with
  | nil => rfl
  | cons a rest ih => simp [run_calls, hfix, ih]

/-- The value committed by the process build is at least 1. -/
theorem user_commit_pos (R p : Int) (hR : 1 ≤ R) (hmax : R ≤ 2147483647) :
    1 ≤ (if p < 1 then to_int R else p) := by
  rw [to_int_of_range R (by omega) hmax]
  split <;> omega

/-- A configured process build rejects every request and answers every query. -/
theorem user_configured (res : Option Int) (s : State) (hp : s.period ≠ 0) (m : Int) :
    (rtapi_clock_set_period_user res s m).state = s ∧
    (rtapi_clock_set_period_user res s m).ret = (if m = 0 then s.period else -EINVAL) := by
  unfold rtapi_clock_set_period_user
  by_cases hm : m = 0
  · simp [hm]
  · simp [hm, hp]

/-- A module build whose timer runs rejects every request and answers every query,
calling no collaborator. -/
theorem module_running (hook : Option Hook) (s : State) (hr : s.timer_running ≠ 0) (m : Int) :
    rtapi_clock_set_period hook s m
      = ⟨s, if m = 0 then s.timer_period else -EINVAL, []⟩ := by
  unfold rtapi_clock_set_period
  by_cases hm : m = 0
  · simp [hm]
  · simp [hm, hr]

/-- An in-range request to a module build with a hook, timer not running. -/
theorem module_commit (h : Hook) (s : State) (n : Int) (hr : s.timer_running = 0)
    (h0 : 2000 ≤ n) (h1 : n ≤ 1000000000) :
    rtapi_clock_set_period (some h) s n
      = ⟨⟨s.period, Int.tdiv (h n s).timer_period 4, to_ulong (h n s).got_counts,
           (h n s).timer_period, 1⟩,
         (h n s).timer_period,
         [Event.clock_set_period_hook n, Event.print_msg msg_level.RTAPI_MSG_DBG]⟩ := by
  unfold rtapi_clock_set_period
  have hn : n ≠ 0 := by omega
  have hrange : ¬ (n < 2000 ∨ n > 1000000000) := by omega
  simp [hn, hr, hrange]

/-- An out-of-range request to a module build, timer not running. -/
theorem module_reject (hook : Option Hook) (s : State) (n : Int) (hr : s.timer_running = 0)
    (hn : n ≠ 0) (hrange : n < 2000 ∨ n > 1000000000) :
    rtapi_clock_set_period hook s n
      = ⟨s, -EINVAL, [Event.print_msg msg_level.RTAPI_MSG_ERR]⟩ := by
  unfold rtapi_clock_set_period
  simp [hn, hr, hrange]

/-! ### rtapi_clock_set_period, queries -/

/-- C1: in the process build and in the module build, whatever the state, a call
with `nsecs = 0` returns the stored period, leaves the state unchanged and calls
no collaborator; so any number of consecutive queries return that same value and
end in the same state. -/
theorem query_idempotent (res : Option Int) (hook : Option Hook) (s : State) (k : Nat) :
    rtapi_clock_set_period_user res s 0 = ⟨s, s.period, []⟩ ∧
    rtapi_clock_set_period hook s 0 = ⟨s, s.timer_period, []⟩ ∧
    run_calls (rtapi_clock_set_period_user res) s (List.replicate k 0)
      = (s, List.replicate k s.period, []) ∧
    run_calls (rtapi_clock_set_period hook) s (List.replicate k 0)
      = (s, List.replicate k s.timer_period, []) := by
  have h1 : ∀ t, rtapi_clock_set_period_user res t 0 = ⟨t, t.period, []⟩ := by
    intro t; simp [rtapi_clock_set_period_user]
  have h2 : ∀ t, rtapi_clock_set_period hook t 0 = ⟨t, t.timer_period, []⟩ := by
    intro t; simp [rtapi_clock_set_period]
  exact ⟨h1 s, h2 s, run_calls_query _ _ h1 s k, run_calls_query _ _ h2 s k⟩

/-! ### rtapi_clock_set_period, process build -/

/-- C2: in the process build with a monotonic clock of resolution `R` (the `tv_nsec`
of a `struct timespec`, so `1 ≤ R ≤ 999999999`), from the unconfigured state the
first call with `n ≠ 0` returns a value `P ≥ 1`, which is the period it stores
(so neither 0 nor the error code `-EINVAL`); in every sequence `ms` of further
calls the stored period is still `P` at the end and each call returns `-EINVAL`
when its argument is not 0 (and `P` when it is the query 0). -/
theorem single_commitment_user (R n : Int) (s : State) (ms : List Int)
    (hs : s.period = 0) (hR : 1 ≤ R) (hns : R ≤ 999999999) (hn : n ≠ 0) :
    1 ≤ (rtapi_clock_set_period_user (some R) s n).ret ∧
    (rtapi_clock_set_period_user (some R) s n).ret ≠ -EINVAL ∧
    (rtapi_clock_set_period_user (some R) s n).state.period
      = (rtapi_clock_set_period_user (some R) s n).ret ∧
    (∀ m, m ≠ 0 →
      (rtapi_clock_set_period_user (some R)
        (rtapi_clock_set_period_user (some R) s n).state m).ret = -EINVAL) ∧
    (run_calls (rtapi_clock_set_period_user (some R))
        (rtapi_clock_set_period_user (some R) s n).state ms).1.period
      = (rtapi_clock_set_period_user (some R) s n).ret ∧
    (run_calls (rtapi_clock_set_period_user (some R))
        (rtapi_clock_set_period_user (some R) s n).state ms).2.1
      = ms.map (fun m =>
          if m = 0 then (rtapi_clock_set_period_user (some R) s n).ret else -EINVAL) := by
  have hpos := user_commit_pos R (to_int (Int.tdiv n R * R)) hR (by omega)
  have hcall : rtapi_clock_set_period_user (some R) s n
      = ⟨{ s with period := if to_int (Int.tdiv n R * R) < 1 then to_int R
                             else to_int (Int.tdiv n R * R) },
         if to_int (Int.tdiv n R * R) < 1 then to_int R else to_int (Int.tdiv n R * R),
         [Event.print_msg msg_level.RTAPI_MSG_DBG]⟩ := by
    unfold rtapi_clock_set_period_user
    simp [hn, hs]
  rw [hcall]
  simp only
  generalize (if to_int (Int.tdiv n R * R) < 1 then to_int R
    else to_int (Int.tdiv n R * R)) = P at hpos
  have hP : ({ s with period := P } : State).period ≠ 0 := by
    show P ≠ 0
    omega
  have hfix := user_configured (some R) { s with period := P } hP
  have hrun := run_calls_fixed (rtapi_clock_set_period_user (some R)) { s with period := P }
    (fun m => if m = 0 then P else -EINVAL) hfix ms
  refine ⟨hpos, ?_, trivial, ?_, ?_, ?_⟩
  · unfold EINVAL; omega
  · intro m hm
    rw [(hfix m).2]
    simp [hm]
  · rw [hrun.1]
  · rw [hrun.2]

/-- Witness for C2: resolution 1000 ns, first request 2500, then the calls
2500, 0, -7. -/
theorem single_commitment_user_witness :
    (rtapi_clock_set_period_user (some 1000) (initial_state 0) 2500).ret = 2000 ∧
    (run_calls (rtapi_clock_set_period_user (some 1000))
        (rtapi_clock_set_period_user (some 1000) (initial_state 0) 2500).state
        [2500, 0, -7]).2.1 = [-22, 2000, -22] ∧
    1 ≤ (rtapi_clock_set_period_user (some 1000) (initial_state 0) 2500).ret :=
  ⟨by decide, by decide,
   (single_commitment_user 1000 2500 (initial_state 0) [2500, 0, -7] rfl
      (by decide) (by decide) (by decide)).1⟩

/-- C4: in the process build with a monotonic clock of resolution `R` (the `tv_nsec`
of a `struct timespec`, so `1 ≤ R ≤ 999999999`), from the unconfigured state a
request `n` with `0 < n ≤ 2^31 - 1` stores and returns: when `n ≥ R`, the largest
multiple of `R` that is at most `n`, which is `(n / R) * R`; when `n < R`, `R`
itself.  The result is a positive multiple of `R`. -/
theorem rounding_user (R n : Int) (s : State)
    (hs : s.period = 0) (hR : 1 ≤ R) (hns : R ≤ 999999999)
    (hn : 0 < n) (hmax : n ≤ 2147483647) :
    (rtapi_clock_set_period_user (some R) s n).state.period
      = (rtapi_clock_set_period_user (some R) s n).ret ∧
    (R ≤ n →
      (rtapi_clock_set_period_user (some R) s n).ret = n / R * R ∧
      R ∣ (rtapi_clock_set_period_user (some R) s n).ret ∧
      (rtapi_clock_set_period_user (some R) s n).ret ≤ n ∧
      ∀ m, R ∣ m → m ≤ n → m ≤ (rtapi_clock_set_period_user (some R) s n).ret) ∧
    (n < R → (rtapi_clock_set_period_user (some R) s n).ret = R) ∧
    0 < (rtapi_clock_set_period_user (some R) s n).ret ∧
    R ∣ (rtapi_clock_set_period_user (some R) s n).ret := by
  have hRpos : 0 < R := by omega
  have hne : n ≠ 0 := by omega
  have htd : Int.tdiv n R = n / R := Int.tdiv_eq_ediv (by omega) (by omega)
  have hq0 : 0 ≤ n / R := Int.ediv_nonneg (by omega) (by omega)
  have hle : n / R * R ≤ n := Int.ediv_mul_le n (by omega)
  have hge : 0 ≤ n / R * R := Int.mul_nonneg hq0 (by omega)
  have hcall : rtapi_clock_set_period_user (some R) s n
      = ⟨{ s with period := if n / R * R < 1 then R else n / R * R },
         if n / R * R < 1 then R else n / R * R,
         [Event.print_msg msg_level.RTAPI_MSG_DBG]⟩ := by
    unfold rtapi_clock_set_period_user
    simp only [hne, hs, htd, to_int_of_range (n / R * R) (by omega) (by omega),
      to_int_of_range R (by omega) (by omega)]
    simp
  rw [hcall]
  simp only
  have hbig : R ≤ n → ¬ (n / R * R < 1) := by
    intro hRn
    have h1 : 1 ≤ n / R := by
      have := Int.ediv_le_ediv hRpos hRn
      rwa [Int.ediv_self (by omega)] at this
    have : 1 * R ≤ n / R * R := Int.mul_le_mul_of_nonneg_right h1 (by omega)
    omega
  have hsmall : n < R → n / R * R < 1 := by
    intro hnR
    rw [Int.ediv_eq_zero_of_lt (by omega) hnR]
    omega
  refine ⟨trivial, ?_, ?_, ?_, ?_⟩
  · intro hRn
    rw [if_neg (hbig hRn)]
    refine ⟨rfl, Dvd.intro_left _ rfl, hle, ?_⟩
    rintro m ⟨k, rfl⟩ hm
    have hk : k ≤ n / R := by
      rw [Int.le_ediv_iff_mul_le hRpos]
      rw [Int.mul_comm] at hm
      exact hm
    rw [Int.mul_comm R k]
    exact Int.mul_le_mul_of_nonneg_right hk (by omega)
  · intro hnR
    rw [if_pos (hsmall hnR)]
  · split <;> omega
  · split
    · exact dvd_refl R
    · exact Dvd.intro_left _ rfl

/-- Witness for C4: resolution 1000 ns; 2500 is rounded down to 2000 and 500 is
raised to 1000. -/
theorem rounding_user_witness :
    (rtapi_clock_set_period_user (some 1000) (initial_state 0) 2500).ret = 2000 ∧
    (rtapi_clock_set_period_user (some 1000) (initial_state 0) 500).ret = 1000 ∧
    (rtapi_clock_set_period_user (some 1000) (initial_state 0) 2500).state.period = 2000 ∧
    (0 : Int) < (rtapi_clock_set_period_user (some 1000) (initial_state 0) 2500).ret ∧
    (rtapi_clock_set_period_user (some 1000) (initial_state 0) 500).ret = 1000 :=
  ⟨by decide, by decide, by decide,
   (rounding_user 1000 2500 (initial_state 0) rfl (by decide) (by decide)
      (by decide) (by decide)).2.2.2.1,
   (rounding_user 1000 500 (initial_state 0) rfl (by decide) (by decide)
      (by decide) (by decide)).2.2.1 (by decide)⟩

/-! ### rtapi_clock_set_period, module build -/

/-- C3: in the module build with a platform hook, from a state where the timer is
not running and for `nsecs ≠ 0`: an out-of-range request (`nsecs < 2000` or
`nsecs > 1000000000`) returns `-EINVAL`, leaves the state as it was and does not
reach the hook; an in-range request invokes the hook, marks the timer running and
returns the period the hook committed.  Hence, the committed period not being the
number `-EINVAL` itself (a period is positive), the call returns `-EINVAL` if and
only if the request is out of range.  In particular 1000 and 1000000001 are
rejected, 2000 and 1000000000 are accepted. -/
theorem range_enforcement (h : Hook) (s : State) (nsecs : Int)
    (hr : s.timer_running = 0) (hn : nsecs ≠ 0) :
    ((h nsecs s).timer_period ≠ -EINVAL →
      ((rtapi_clock_set_period (some h) s nsecs).ret = -EINVAL
        ↔ (nsecs < 2000 ∨ nsecs > 1000000000))) ∧
    ((nsecs < 2000 ∨ nsecs > 1000000000) →
      rtapi_clock_set_period (some h) s nsecs
        = ⟨s, -EINVAL, [Event.print_msg msg_level.RTAPI_MSG_ERR]⟩) ∧
    ((2000 ≤ nsecs ∧ nsecs ≤ 1000000000) →
      (rtapi_clock_set_period (some h) s nsecs).events
        = [Event.clock_set_period_hook nsecs, Event.print_msg msg_level.RTAPI_MSG_DBG] ∧
      (rtapi_clock_set_period (some h) s nsecs).state.timer_running = 1 ∧
      (rtapi_clock_set_period (some h) s nsecs).ret = (h nsecs s).timer_period) ∧
    rtapi_clock_set_period (some h) s 1000
      = ⟨s, -EINVAL, [Event.print_msg msg_level.RTAPI_MSG_ERR]⟩ ∧
    rtapi_clock_set_period (some h) s 1000000001
      = ⟨s, -EINVAL, [Event.print_msg msg_level.RTAPI_MSG_ERR]⟩ ∧
    (rtapi_clock_set_period (some h) s 2000).events
      = [Event.clock_set_period_hook 2000, Event.print_msg msg_level.RTAPI_MSG_DBG] ∧
    (rtapi_clock_set_period (some h) s 2000).state.timer_running = 1 ∧
    (rtapi_clock_set_period (some h) s 1000000000).events
      = [Event.clock_set_period_hook 1000000000, Event.print_msg msg_level.RTAPI_MSG_DBG] ∧
    (rtapi_clock_set_period (some h) s 1000000000).state.timer_running = 1 := by
  refine ⟨?_, ?_, ?_, ?_, ?_, ?_, ?_, ?_, ?_⟩
  · intro hP
    constructor
    · intro hret
      by_contra hin
      rw [module_commit h s nsecs hr (by omega) (by omega)] at hret
      exact hP hret
    · intro hout
      rw [module_reject (some h) s nsecs hr hn hout]
  · intro hout
    exact module_reject (some h) s nsecs hr hn hout
  · intro hin
    rw [module_commit h s nsecs hr hin.1 hin.2]
    exact ⟨rfl, rfl, rfl⟩
  · exact module_reject (some h) s 1000 hr (by decide) (by decide)
  · exact module_reject (some h) s 1000000001 hr (by decide) (by decide)
  · rw [module_commit h s 2000 hr (by decide) (by decide)]
  · rw [module_commit h s 2000 hr (by decide) (by decide)]
  · rw [module_commit h s 1000000000 hr (by decide) (by decide)]
  · rw [module_commit h s 1000000000 hr (by decide) (by decide)]

/-- Witness for C3: the hook that commits the requested period, from the initial
state, at the request 2000. -/
theorem range_enforcement_witness :
    (initial_state 0).timer_running = 0 ∧ (2000 : Int) ≠ 0 ∧
    (exact_hook 2000 (initial_state 0)).timer_period ≠ -EINVAL ∧
    ((rtapi_clock_set_period (some exact_hook) (initial_state 0) 2000).ret = -EINVAL
        ↔ ((2000 : Int) < 2000 ∨ (2000 : Int) > 1000000000)) ∧
    (rtapi_clock_set_period (some exact_hook) (initial_state 0) 2000).ret = 2000 ∧
    (rtapi_clock_set_period (some exact_hook) (initial_state 0) 1000).ret = -22 :=
  ⟨rfl, by decide, by decide,
   (range_enforcement exact_hook (initial_state 0) 2000 rfl (by decide)).1 (by decide),
   by decide, by decide⟩

/-- C5: in the module build (with or without a hook), after a call with
`2000 ≤ n ≤ 1000000000` made while the timer was not running, the timer runs; from
then on every call with `m ≠ 0` returns `-EINVAL`, calls no collaborator (the hook
is not invoked, nothing is logged) and leaves the whole state unchanged; so does
every sequence `ms` of later calls, the queries in it returning the stored period. -/
theorem single_commitment_module (hook : Option Hook) (s : State) (n : Int) (ms : List Int)
    (hr : s.timer_running = 0) (h0 : 2000 ≤ n) (h1 : n ≤ 1000000000) :
    (rtapi_clock_set_period hook s n).state.timer_running = 1 ∧
    (∀ m, m ≠ 0 →
      rtapi_clock_set_period hook (rtapi_clock_set_period hook s n).state m
        = ⟨(rtapi_clock_set_period hook s n).state, -EINVAL, []⟩) ∧
    run_calls (rtapi_clock_set_period hook) (rtapi_clock_set_period hook s n).state ms
      = ((rtapi_clock_set_period hook s n).state,
         ms.map (fun m =>
           if m = 0 then (rtapi_clock_set_period hook s n).state.timer_period else -EINVAL),
         []) := by
  have hrun : (rtapi_clock_set_period hook s n).state.timer_running = 1 := by
    unfold rtapi_clock_set_period
    have hn : n ≠ 0 := by omega
    have hrange : ¬ (n < 2000 ∨ n > 1000000000) := by omega
    cases hook <;> simp [hn, hr, hrange]
  have hne : (rtapi_clock_set_period hook s n).state.timer_running ≠ 0 := by
    rw [hrun]; decide
  refine ⟨hrun, ?_, ?_⟩
  · intro m hm
    rw [module_running hook _ hne m]
    simp [hm]
  · exact run_calls_const _ _ _ (module_running hook _ hne) ms

/-- Witness for C5: commit 2000 from the initial state, then request 2000, 5 and
3000 again, with a query in between. -/
theorem single_commitment_module_witness :
    run_calls (rtapi_clock_set_period (some exact_hook))
        (rtapi_clock_set_period (some exact_hook) (initial_state 0) 2000).state
        [2000, 5, 0, 3000]
      = (⟨0, 500, 2000, 2000, 1⟩, [-22, -22, 2000, -22], []) ∧
    (rtapi_clock_set_period (some exact_hook) (initial_state 0) 2000).state.timer_running
      = 1 :=
  ⟨by decide,
   (single_commitment_module (some exact_hook) (initial_state 0) 2000 [2000, 5, 0, 3000]
      rfl (by decide) (by decide)).1⟩

/-- C6: in the module build with a platform hook, for every in-range request `n`
made while the timer is not running and whatever period `P` the hook commits into
`timer_period`, the call returns `P`, and `rtapi_delay_max` called right after
returns `P / 4` in C integer division (which is the floor of `P / 4` when
`P ≥ 0`) without changing the state; so `max_delay` is at most `timer_period / 4`. -/
theorem derived_bound (h : Hook) (s : State) (n : Int)
    (hr : s.timer_running = 0) (h0 : 2000 ≤ n) (h1 : n ≤ 1000000000) :
    (rtapi_clock_set_period (some h) s n).ret = (h n s).timer_period ∧
    (rtapi_clock_set_period (some h) s n).state.timer_period = (h n s).timer_period ∧
    (rtapi_delay_max (rtapi_clock_set_period (some h) s n).state).ret
      = Int.tdiv (h n s).timer_period 4 ∧
    (0 ≤ (h n s).timer_period →
      (rtapi_delay_max (rtapi_clock_set_period (some h) s n).state).ret
        = (h n s).timer_period / 4) ∧
    (rtapi_delay_max (rtapi_clock_set_period (some h) s n).state).state
      = (rtapi_clock_set_period (some h) s n).state ∧
    (rtapi_clock_set_period (some h) s n).state.max_delay
      ≤ Int.tdiv (rtapi_clock_set_period (some h) s n).state.timer_period 4 := by
  rw [module_commit h s n hr h0 h1]
  refine ⟨rfl, rfl, rfl, ?_, rfl, le_refl _⟩
  intro hP
  show Int.tdiv (h n s).timer_period 4 = (h n s).timer_period / 4
  exact Int.tdiv_eq_ediv hP (by decide)

/-- Witness for C6: the hook commits the requested period 10002; the call returns
10002 and `rtapi_delay_max` then returns 2500. -/
theorem derived_bound_witness :
    (rtapi_clock_set_period (some exact_hook) (initial_state 0) 10002).ret = 10002 ∧
    (rtapi_delay_max
        (rtapi_clock_set_period (some exact_hook) (initial_state 0) 10002).state).ret
      = 2500 ∧
    (rtapi_clock_set_period (some exact_hook) (initial_state 0) 10002).ret
      = (exact_hook 10002 (initial_state 0)).timer_period :=
  ⟨by decide, by decide,
   (derived_bound exact_hook (initial_state 0) 10002 rfl (by decide) (by decide)).1⟩

/-! ### rtapi_delay -/

/-- C7: whatever `max_delay` is, `rtapi_delay x` with `x > max_delay` does exactly
what `rtapi_delay max_delay` does; for every `nsec` the single call to the
busy-wait primitive gets `min nsec max_delay / 1000`, the division truncating the
part below a microsecond, and the state is unchanged. -/
theorem delay_clamp (s : State) (nsec x : Int) :
    (s.max_delay < x → rtapi_delay s x = rtapi_delay s s.max_delay) ∧
    rtapi_delay s nsec = ⟨s, 0, [Event.udelay (Int.tdiv (min nsec s.max_delay) 1000)]⟩ ∧
    (rtapi_delay s nsec).state = s ∧
    (0 ≤ min nsec s.max_delay →
      Int.tdiv (min nsec s.max_delay) 1000 * 1000 ≤ min nsec s.max_delay ∧
      min nsec s.max_delay < Int.tdiv (min nsec s.max_delay) 1000 * 1000 + 1000) := by
  have hmin : ∀ y : Int, (if y > s.max_delay then s.max_delay else y) = min y s.max_delay := by
    intro y
    split
    · exact (min_eq_right (by omega)).symm
    · exact (min_eq_left (by omega)).symm
  refine ⟨?_, ?_, rfl, ?_⟩
  · intro hx
    unfold rtapi_delay
    simp only [hmin, min_eq_right (le_of_lt hx), min_self]
  · unfold rtapi_delay
    simp only [hmin]
  · intro h0
    rw [Int.tdiv_eq_ediv h0 (by decide)]
    omega

/-- Witness for C7: with `max_delay = 10000`, a request of 25999 ns waits 10 us,
as a request of 10000 ns does; a request of 2999 ns waits 2 us. -/
theorem delay_clamp_witness :
    rtapi_delay (initial_state 10000) 25999 = rtapi_delay (initial_state 10000) 10000 ∧
    (rtapi_delay (initial_state 10000) 25999).events = [Event.udelay 10] ∧
    (rtapi_delay (initial_state 10000) 2999).events = [Event.udelay 2] :=
  ⟨(delay_clamp (initial_state 10000) 0 25999).1 (by decide), by decide, by decide⟩

/-! ### rtapi_get_time -/

/-- C8: in the build on the monotonic clock, for readings with
`0 ≤ tv_nsec < 1000000000` and `0 ≤ tv_sec ≤ 9223372035`, `rtapi_get_time` returns
`tv_sec * 1000000000 + tv_nsec`, and when a first reading `a` is followed by a
reading `b` that is not earlier (lexicographic order on seconds, nanoseconds), the
second call does not return less than the first. -/
theorem get_time_monotonic (st : State) (a b : timespec)
    (ha0 : 0 ≤ a.tv_nsec) (ha1 : a.tv_nsec < 1000000000)
    (hb0 : 0 ≤ b.tv_nsec) (hb1 : b.tv_nsec < 1000000000)
    (has0 : 0 ≤ a.tv_sec) (has1 : a.tv_sec ≤ 9223372035)
    (hbs0 : 0 ≤ b.tv_sec) (hbs1 : b.tv_sec ≤ 9223372035)
    (hlex : a.tv_sec < b.tv_sec ∨ (a.tv_sec = b.tv_sec ∧ a.tv_nsec ≤ b.tv_nsec)) :
    (rtapi_get_time st a).ret = a.tv_sec * 1000000000 + a.tv_nsec ∧
    (rtapi_get_time (rtapi_get_time st a).state b).ret
      = b.tv_sec * 1000000000 + b.tv_nsec ∧
    (rtapi_get_time st a).ret ≤ (rtapi_get_time (rtapi_get_time st a).state b).ret := by
  have hval : ∀ (u : State) (t : timespec), 0 ≤ t.tv_nsec → t.tv_nsec < 1000000000 →
      0 ≤ t.tv_sec → t.tv_sec ≤ 9223372035 →
      (rtapi_get_time u t).ret = t.tv_sec * 1000000000 + t.tv_nsec := by
    intro u t h0 h1 h2 h3
    show to_long (to_long (to_long (to_long (t.tv_sec * 1000) * 1000) * 1000) + t.tv_nsec)
      = t.tv_sec * 1000000000 + t.tv_nsec
    rw [to_long_of_range (t.tv_sec * 1000) (by omega) (by omega),
      to_long_of_range (t.tv_sec * 1000 * 1000) (by omega) (by omega),
      to_long_of_range (t.tv_sec * 1000 * 1000 * 1000) (by omega) (by omega),
      to_long_of_range _ (by omega) (by omega)]
    omega
  rw [hval st a ha0 ha1 has0 has1, hval _ b hb0 hb1 hbs0 hbs1]
  refine ⟨rfl, rfl, ?_⟩
  omega

/-- Witness for C8: the readings (5 s, 999999999 ns) and (6 s, 0 ns). -/
theorem get_time_monotonic_witness :
    (rtapi_get_time (initial_state 0) ⟨5, 999999999⟩).ret = 5999999999 ∧
    (rtapi_get_time (initial_state 0) ⟨6, 0⟩).ret = 6000000000 ∧
    (rtapi_get_time (initial_state 0) ⟨5, 999999999⟩).ret
      ≤ (rtapi_get_time (rtapi_get_time (initial_state 0) ⟨5, 999999999⟩).state ⟨6, 0⟩).ret :=
  ⟨by decide, by decide,
   (get_time_monotonic (initial_state 0) ⟨5, 999999999⟩ ⟨6, 0⟩
      (by decide) (by decide) (by decide) (by decide) (by decide) (by decide)
      (by decide) (by decide) (Or.inl (by decide))).2.2⟩

/-- A run of `rtapi_get_time` calls in the `ULAPI` build leaves the state alone and
passes one message to the sink for each call. -/
theorem run_get_time_ulapi (s : State) (l : List timeval) :
    (run_calls rtapi_get_time_ulapi s l).1 = s ∧
    (run_calls rtapi_get_time_ulapi s l).2.2
      = List.replicate l.length (Event.print_msg msg_level.RTAPI_MSG_ERR) := by
  induction l with
  | nil => exact ⟨rfl, rfl⟩
  | cons a rest ih =>
    refine ⟨ih.1, ?_⟩
    show Event.print_msg msg_level.RTAPI_MSG_ERR
        :: (run_calls rtapi_get_time_ulapi s rest).2.2 = _
    rw [ih.2, List.length_cons, List.replicate_succ]

/-- C9, as the code has it: in the `ULAPI` build every call of `rtapi_get_time`
passes one message (level `RTAPI_MSG_ERR`) to the message sink, the first call and
every later one alike; a run of `N` consecutive calls emits `N` messages. -/
theorem get_time_ulapi_logs_each_call (s : State) (tv : timeval) (l : List timeval) :
    (rtapi_get_time_ulapi s tv).events = [Event.print_msg msg_level.RTAPI_MSG_ERR] ∧
    (rtapi_get_time_ulapi s tv).state = s ∧
    (run_calls rtapi_get_time_ulapi s l).2.2
      = List.replicate l.length (Event.print_msg msg_level.RTAPI_MSG_ERR) ∧
    (run_calls rtapi_get_time_ulapi s l).2.2.length = l.length :=
  ⟨rfl, rfl, (run_get_time_ulapi s l).2, by
    rw [(run_get_time_ulapi s l).2, List.length_replicate]⟩

/-- C9 fails as stated: two consecutive calls emit two messages, the second call
logs like the first, and 1000 consecutive calls emit 1000 messages, not one. -/
theorem get_time_ulapi_logs_once_fails :
    (run_calls rtapi_get_time_ulapi (initial_state 0) [⟨1, 0⟩, ⟨1, 1⟩]).2.2.length = 2 ∧
    (run_calls rtapi_get_time_ulapi (initial_state 0) [⟨1, 0⟩, ⟨1, 1⟩]).2.2.length ≠ 1 ∧
    (rtapi_get_time_ulapi (rtapi_get_time_ulapi (initial_state 0) ⟨1, 0⟩).state ⟨1, 1⟩).events
      ≠ [] ∧
    (run_calls rtapi_get_time_ulapi (initial_state 0)
        (List.replicate 1000 ⟨1, 0⟩)).2.2.length = 1000 ∧
    (run_calls rtapi_get_time_ulapi (initial_state 0)
        (List.replicate 1000 ⟨1, 0⟩)).2.2.length ≠ 1 := by
  have h := (run_get_time_ulapi (initial_state 0) (List.replicate 1000 ⟨1, 0⟩)).2
  rw [List.length_replicate] at h
  refine ⟨by decide, by decide, by decide, ?_, ?_⟩
  · rw [h, List.length_replicate]
  · rw [h, List.length_replicate]; decide

/-! ### rtapi_get_clocks -/

/-- A run of `rtapi_get_clocks` calls on a platform without a counter leaves the
state alone, returns 0 each time and calls no collaborator. -/
theorem run_get_clocks_unavailable (s : State) (l : List Int) :
    run_calls (rtapi_get_clocks clocks_impl.unavailable) s l = (s, l.map (fun _ => 0), []) :=
  run_calls_const _ s _ (fun _ => rfl) l

/-- C10, as the code has it: with no get-clocks hook and no counter-read
implementation for the platform, every call of `rtapi_get_clocks` returns 0,
leaves the state unchanged and passes nothing to the message sink; a run of `N`
calls returns `N` zeros and emits no message at run time (the notice is the
compile-time `#warning` of line 29). -/
theorem get_clocks_unavailable (s : State) (counter : Int) (l : List Int) :
    rtapi_get_clocks clocks_impl.unavailable s counter = ⟨s, 0, []⟩ ∧
    (run_calls (rtapi_get_clocks clocks_impl.unavailable) s l).2.1
      = List.replicate l.length 0 ∧
    (run_calls (rtapi_get_clocks clocks_impl.unavailable) s l).2.2 = [] := by
  rw [run_get_clocks_unavailable]
  refine ⟨rfl, ?_, rfl⟩
  show l.map (fun _ => (0 : Int)) = List.replicate l.length 0
  induction l with
  | nil => rfl
  | cons a rest ih => rw [List.map_cons, ih, List.length_cons, List.replicate_succ]

/-- C10 fails as stated: one call, or 1000 calls, on a platform without a counter
emit no message at run time, not one. -/
theorem get_clocks_logged_once_fails :
    (rtapi_get_clocks clocks_impl.unavailable (initial_state 0) 0).events.length = 0 ∧
    (rtapi_get_clocks clocks_impl.unavailable (initial_state 0) 0).events.length ≠ 1 ∧
    (run_calls (rtapi_get_clocks clocks_impl.unavailable) (initial_state 0)
        (List.replicate 1000 0)).2.2.length ≠ 1 := by
  rw [run_get_clocks_unavailable]
  exact ⟨rfl, by decide, by decide⟩

/-! ### Width of the period, process build -/

/-- C11, as the code has it: in the process build the period is the 32-bit
`int period`, and the floor to `R` applies whenever the rounded value is below 1.
From the unconfigured state, for a resolution `1 ≤ R ≤ 999999999` and every
non-zero request whose rounded value `(nsecs / R) * R` (C division) fits an `int`,
the call stores and returns that rounded value when it is at least 1, and `R`
when it is 0 or negative. -/
theorem period_width_user (R nsecs : Int) (s : State)
    (hs : s.period = 0) (hR : 1 ≤ R) (hns : R ≤ 999999999) (hn : nsecs ≠ 0)
    (hlo : -2147483648 ≤ Int.tdiv nsecs R * R) (hhi : Int.tdiv nsecs R * R ≤ 2147483647) :
    (rtapi_clock_set_period_user (some R) s nsecs).ret
      = (if Int.tdiv nsecs R * R < 1 then R else Int.tdiv nsecs R * R) ∧
    (rtapi_clock_set_period_user (some R) s nsecs).state.period
      = (rtapi_clock_set_period_user (some R) s nsecs).ret := by
  unfold rtapi_clock_set_period_user
  simp only [hn, hs, to_int_of_range (Int.tdiv nsecs R * R) hlo hhi,
    to_int_of_range R (by omega) (by omega)]
  simp

/-- Witness for C11: resolution 1000 ns; the request -2500 rounds to -2000 and is
raised to 1000, the request 2500 rounds to 2000. -/
theorem period_width_user_witness :
    (rtapi_clock_set_period_user (some 1000) (initial_state 0) (-2500)).ret = 1000 ∧
    (rtapi_clock_set_period_user (some 1000) (initial_state 0) 2500).ret = 2000 ∧
    (rtapi_clock_set_period_user (some 1000) (initial_state 0) (-2500)).ret
      = (if Int.tdiv (-2500) 1000 * 1000 < 1 then 1000 else Int.tdiv (-2500) 1000 * 1000) :=
  ⟨by decide, by decide,
   (period_width_user 1000 (-2500) (initial_state 0) rfl (by decide) (by decide)
      (by decide) (by decide) (by decide)).1⟩

/-- C11 fails as stated: with resolution 1000 ns the request -2500 rounds to -2000,
which is not 0, yet 1000 is returned; with resolution 1 ns the request
4294967301 (above `2^31 - 1`) rounds to itself, yet 5 is stored and returned. -/
theorem period_full_width_fails :
    Int.tdiv (-2500) 1000 * 1000 = -2000 ∧
    (rtapi_clock_set_period_user (some 1000) (initial_state 0) (-2500)).ret = 1000 ∧
    (rtapi_clock_set_period_user (some 1000) (initial_state 0) (-2500)).ret
      ≠ Int.tdiv (-2500) 1000 * 1000 ∧
    Int.tdiv 4294967301 1 * 1 = 4294967301 ∧
    (rtapi_clock_set_period_user (some 1) (initial_state 0) 4294967301).ret = 5 ∧
    (rtapi_clock_set_period_user (some 1) (initial_state 0) 4294967301).state.period = 5 ∧
    (rtapi_clock_set_period_user (some 1) (initial_state 0) 4294967301).ret
      ≠ Int.tdiv 4294967301 1 * 1 := by
  refine ⟨by decide, by decide, by decide, by decide, by decide, by decide, by decide⟩

/-! ### Bound on the busy-wait -/

/-- C12 at a failing input: with `max_delay = 10000`, `rtapi_delay (-1000)` is not
clamped (only requests above `max_delay` are) and hands `-1000 / 1000 = -1` to the
busy-wait primitive, which receives it as the unsigned count
18446744073709551615; the count is not between 0 and `max_delay / 1000 = 10`. -/
theorem delay_negative_not_bounded :
    (0 : Int) ≤ (initial_state 10000).max_delay ∧
    (rtapi_delay (initial_state 10000) (-1000)).events = [Event.udelay (-1)] ∧
    udelay_counts (rtapi_delay (initial_state 10000) (-1000)).events
      = [18446744073709551615] ∧
    Int.tdiv (initial_state 10000).max_delay 1000 = 10 ∧
    ¬ ((18446744073709551615 : Int) ≤ Int.tdiv (initial_state 10000).max_delay 1000) ∧
    ¬ ((0 : Int) ≤ -1) := by
  refine ⟨by decide, by decide, by decide, by decide, by decide, by decide⟩

/-! ### The timer_running flag -/

/-- Every exported operation leaves a state whose timer runs exactly as it is. -/
theorem module_step_running (hook : Option Hook) (impl : clocks_impl) (s : State)
    (hr : s.timer_running ≠ 0) (op : module_op) :
    (module_step hook impl s op).state = s := by
  cases op with
  | clock_set_period nsecs =>
    show (rtapi_clock_set_period hook s nsecs).state = s
    rw [module_running hook s hr nsecs]
  | delay nsec => rfl
  | delay_max => rfl
  | get_time ts => rfl
  | get_time_hooked t => rfl
  | get_time_ulapi tv => rfl
  | get_clocks counter => cases impl <;> rfl

/-- A sequence of exported operations leaves a state whose timer runs as it is. -/
theorem run_module_running (hook : Option Hook) (impl : clocks_impl) (s : State)
    (hr : s.timer_running ≠ 0) (l : List module_op) :
    (run_calls (module_step hook impl) s l).1 = s := by
  induction l with
  | nil => rfl
  | cons a rest ih =>
    show (run_calls (module_step hook impl) (module_step hook impl s a).state rest).1 = s
    rw [module_step_running hook impl s hr a]
    exact ih

/-- C13: in the module build, for every state and every `nsecs`, `timer_running`
is set after `rtapi_clock_set_period nsecs` if and only if it was set before, or
the call was a commit (`nsecs ≠ 0`, timer not running, `2000 ≤ nsecs ≤ 1000000000`).
`rtapi_delay`, `rtapi_delay_max`, `rtapi_get_time` (every build) and
`rtapi_get_clocks` do not write the state at all; so once the flag is set, it is
still set after any exported operation and after any sequence of them. -/
theorem timer_running_invariant (hook : Option Hook) (impl : clocks_impl) (s : State)
    (nsecs : Int) (op : module_op) (l : List module_op) :
    ((rtapi_clock_set_period hook s nsecs).state.timer_running ≠ 0 ↔
      (s.timer_running ≠ 0 ∨
        (nsecs ≠ 0 ∧ s.timer_running = 0 ∧ 2000 ≤ nsecs ∧ nsecs ≤ 1000000000))) ∧
    (∀ nsec, (rtapi_delay s nsec).state = s) ∧
    (rtapi_delay_max s).state = s ∧
    (∀ ts, (rtapi_get_time s ts).state = s) ∧
    (∀ t, (rtapi_get_time_hooked s t).state = s) ∧
    (∀ tv, (rtapi_get_time_ulapi s tv).state = s) ∧
    (∀ counter, (rtapi_get_clocks impl s counter).state = s) ∧
    (s.timer_running ≠ 0 → (module_step hook impl s op).state.timer_running ≠ 0) ∧
    (s.timer_running ≠ 0 →
      (run_calls (module_step hook impl) s l).1.timer_running ≠ 0) := by
  refine ⟨?_, fun _ => rfl, rfl, fun _ => rfl, fun _ => rfl, fun _ => rfl, ?_, ?_, ?_⟩
  · by_cases hr : s.timer_running = 0
    · by_cases hn : nsecs = 0
      · simp [rtapi_clock_set_period, hn, hr]
      · by_cases hrange : nsecs < 2000 ∨ nsecs > 1000000000
        · rw [module_reject hook s nsecs hr hn hrange]
          constructor
          · intro h; exact absurd hr h
          · rintro (h | ⟨_, _, h2, h3⟩)
            · exact absurd hr h
            · omega
        · have h2 : 2000 ≤ nsecs := by omega
          have h3 : nsecs ≤ 1000000000 := by omega
          have hset : (rtapi_clock_set_period hook s nsecs).state.timer_running = 1 := by
            unfold rtapi_clock_set_period
            cases hook <;> simp [hn, hr, hrange]
          rw [hset]
          constructor
          · intro _; exact Or.inr ⟨hn, hr, h2, h3⟩
          · intro _; decide
    · rw [module_running hook s hr nsecs]
      constructor
      · intro h; exact Or.inl h
      · intro _; exact hr
  · intro counter
    cases impl <;> rfl
  · intro hr
    rw [module_step_running hook impl s hr op]
    exact hr
  · intro hr
    rw [run_module_running hook impl s hr l]
    exact hr

/-- Witness for C13: after the commit of 2000 the flag is 1, and it is still 1
after a rejected request, a delay, a time reading and a query. -/
theorem timer_running_invariant_witness :
    (rtapi_clock_set_period (some exact_hook) (initial_state 0) 2000).state.timer_running
      = 1 ∧
    (run_calls (module_step (some exact_hook) clocks_impl.rdtsc)
        (rtapi_clock_set_period (some exact_hook) (initial_state 0) 2000).state
        [module_op.clock_set_period 5000, module_op.delay 700, module_op.get_time ⟨1, 2⟩,
         module_op.clock_set_period 0]).1.timer_running = 1 ∧
    (run_calls (module_step (some exact_hook) clocks_impl.rdtsc)
        (rtapi_clock_set_period (some exact_hook) (initial_state 0) 2000).state
        [module_op.clock_set_period 5000, module_op.delay 700, module_op.get_time ⟨1, 2⟩,
         module_op.clock_set_period 0]).1.timer_running ≠ 0 :=
  ⟨by decide, by decide,
   (timer_running_invariant (some exact_hook) clocks_impl.rdtsc
      (rtapi_clock_set_period (some exact_hook) (initial_state 0) 2000).state 0
      module_op.delay_max
      [module_op.clock_set_period 5000, module_op.delay 700, module_op.get_time ⟨1, 2⟩,
       module_op.clock_set_period 0]).2.2.2.2.2.2.2.2 (by decide)⟩

/-! ### Failure results of the module build -/

/-- C14, as the code has it: in the module build a request refused because the
timer already runs and a request refused because it is outside
`[2000, 1000000000]` return the same value, `-EINVAL`; the results are equal and
do not tell the failures apart.  The calls differ only in the message sink: the
out-of-range refusal passes it one message, the other refusal none. -/
theorem failures_same_result (hook : Option Hook) (s t : State) (m n : Int)
    (hs : s.timer_running ≠ 0) (hm : m ≠ 0)
    (ht : t.timer_running = 0) (hn : n ≠ 0) (hrange : n < 2000 ∨ n > 1000000000) :
    (rtapi_clock_set_period hook s m).ret = -EINVAL ∧
    (rtapi_clock_set_period hook t n).ret = -EINVAL ∧
    (rtapi_clock_set_period hook s m).ret = (rtapi_clock_set_period hook t n).ret ∧
    (rtapi_clock_set_period hook s m).events = [] ∧
    (rtapi_clock_set_period hook t n).events = [Event.print_msg msg_level.RTAPI_MSG_ERR] := by
  rw [module_running hook s hs m, module_reject hook t n ht hn hrange]
  simp [hm]

/-- Witness for C14: the request 5000 after a commit of 2000, and the request 1000
from the initial state. -/
theorem failures_same_result_witness :
    (rtapi_clock_set_period (some exact_hook)
        (rtapi_clock_set_period (some exact_hook) (initial_state 0) 2000).state 5000).ret
      = -EINVAL ∧
    (rtapi_clock_set_period (some exact_hook) (initial_state 0) 1000).ret = -EINVAL :=
  ⟨(failures_same_result (some exact_hook)
      (rtapi_clock_set_period (some exact_hook) (initial_state 0) 2000).state
      (initial_state 0) 5000 1000 (by decide) (by decide) rfl (by decide)
      (Or.inl (by decide))).1,
   by decide⟩

/-- C14 fails as stated: the request 5000 made after a commit of 2000 (period
already committed) and the request 1000 made from the initial state (out of range)
both return -22. -/
theorem failures_distinguishable_fails :
    (rtapi_clock_set_period (some exact_hook)
        (rtapi_clock_set_period (some exact_hook) (initial_state 0) 2000).state 5000).ret
      = -22 ∧
    (rtapi_clock_set_period (some exact_hook) (initial_state 0) 1000).ret = -22 ∧
    ¬ ((rtapi_clock_set_period (some exact_hook)
          (rtapi_clock_set_period (some exact_hook) (initial_state 0) 2000).state 5000).ret
        ≠ (rtapi_clock_set_period (some exact_hook) (initial_state 0) 1000).ret) := by
  refine ⟨by decide, by decide, by decide⟩

/-! ### Rejected requests do not commit -/

/-- A sequence of out-of-range requests to a module build whose timer does not run:
the state stays, each call returns `-EINVAL` and logs one message. -/
theorem run_rejected (hook : Option Hook) (s : State) (hr : s.timer_running = 0)
    (bad : List Int) (hbad : ∀ m ∈ bad, m ≠ 0 ∧ (m < 2000 ∨ m > 1000000000)) :
    run_calls (rtapi_clock_set_period hook) s bad
      = (s, List.replicate bad.length (-EINVAL),
         List.replicate bad.length (Event.print_msg msg_level.RTAPI_MSG_ERR)) := by
  induction bad with
  | nil => rfl
  | cons a rest ih =>
    have ha := hbad a (List.mem_cons_self a rest)
    have hrest := ih (fun m hm => hbad m (List.mem_cons_of_mem a hm))
    simp only [run_calls, module_reject hook s a hr ha.1 ha.2, hrest, List.length_cons,
      List.replicate_succ, List.singleton_append]

/-- C15: in the module build, an out-of-range request made while the timer does not
run returns `-EINVAL` with the whole state unchanged and without reaching the
hook (its only collaborator call is one message); after any sequence `bad` of such
requests the state is still the one before them, so an in-range request then
commits: the timer is marked running, the stored period is returned and, in a
build with a hook, the hook is invoked with the request. -/
theorem rejection_atomic (hook : Option Hook) (s : State) (bad : List Int) (n : Int)
    (hr : s.timer_running = 0)
    (hbad : ∀ m ∈ bad, m ≠ 0 ∧ (m < 2000 ∨ m > 1000000000))
    (h0 : 2000 ≤ n) (h1 : n ≤ 1000000000) :
    (∀ m ∈ bad, rtapi_clock_set_period hook s m
      = ⟨s, -EINVAL, [Event.print_msg msg_level.RTAPI_MSG_ERR]⟩) ∧
    run_calls (rtapi_clock_set_period hook) s bad
      = (s, List.replicate bad.length (-EINVAL),
         List.replicate bad.length (Event.print_msg msg_level.RTAPI_MSG_ERR)) ∧
    (∀ m, Event.clock_set_period_hook m
      ∉ (run_calls (rtapi_clock_set_period hook) s bad).2.2) ∧
    (rtapi_clock_set_period hook
      (run_calls (rtapi_clock_set_period hook) s bad).1 n).state.timer_running = 1 ∧
    (rtapi_clock_set_period hook (run_calls (rtapi_clock_set_period hook) s bad).1 n).ret
      = (rtapi_clock_set_period hook
          (run_calls (rtapi_clock_set_period hook) s bad).1 n).state.timer_period ∧
    (∀ h, hook = some h →
      rtapi_clock_set_period hook (run_calls (rtapi_clock_set_period hook) s bad).1 n
        = ⟨⟨s.period, Int.tdiv (h n s).timer_period 4, to_ulong (h n s).got_counts,
             (h n s).timer_period, 1⟩,
           (h n s).timer_period,
           [Event.clock_set_period_hook n, Event.print_msg msg_level.RTAPI_MSG_DBG]⟩) := by
  have hrun := run_rejected hook s hr bad hbad
  have hn : n ≠ 0 := by omega
  have hrange : ¬ (n < 2000 ∨ n > 1000000000) := by omega
  rw [hrun]
  refine ⟨?_, rfl, ?_, ?_, ?_, ?_⟩
  · intro m hm
    exact module_reject hook s m hr (hbad m hm).1 (hbad m hm).2
  · intro m hmem
    have := List.eq_of_mem_replicate hmem
    exact Event.noConfusion this
  · show (rtapi_clock_set_period hook s n).state.timer_running = 1
    unfold rtapi_clock_set_period
    cases hook <;> simp [hn, hr, hrange]
  · show (rtapi_clock_set_period hook s n).ret
      = (rtapi_clock_set_period hook s n).state.timer_period
    unfold rtapi_clock_set_period
    cases hook <;> simp [hn, hr, hrange]
  · intro h hh
    subst hh
    exact module_commit h s n hr h0 h1

/-- Witness for C15: from the initial state the requests 1000, 1000000001 and -5
are rejected, then 2000 commits. -/
theorem rejection_atomic_witness :
    run_calls (rtapi_clock_set_period (some exact_hook)) (initial_state 0)
        [1000, 1000000001, -5]
      = (initial_state 0, [-22, -22, -22],
         [Event.print_msg msg_level.RTAPI_MSG_ERR, Event.print_msg msg_level.RTAPI_MSG_ERR,
          Event.print_msg msg_level.RTAPI_MSG_ERR]) ∧
    (rtapi_clock_set_period (some exact_hook)
      (run_calls (rtapi_clock_set_period (some exact_hook)) (initial_state 0)
        [1000, 1000000001, -5]).1 2000).ret = 2000 ∧
    (rtapi_clock_set_period (some exact_hook)
      (run_calls (rtapi_clock_set_period (some exact_hook)) (initial_state 0)
        [1000, 1000000001, -5]).1 2000).state.timer_running = 1 :=
  ⟨by decide, by decide,
   (rejection_atomic (some exact_hook) (initial_state 0) [1000, 1000000001, -5] 2000
      rfl (by decide) (by decide) (by decide)).2.2.2.1⟩

end RtapiTime
